import Mathlib

/-!
Shallow embedding of `discord/ext/commands/commands.py` (Kamigaku/discord.py):
the application-command schema model (option types, choices, options, commands),
the staging registry, the reconciliation skeleton `register_commands`, and the
type-inference chain of `slash_command`, together with proofs settling the
claims of the specification against this code.
-/

set_option autoImplicit false

namespace DiscordExt

/-- SchemaError models the construction-time failures of the schema layer.
The spec names the malformed-data error kind InvalidSchema; the runtime
surfaces it as the ValueError-style failure of the enum conversion. -/
inductive SchemaError where
  | InvalidSchema (msg : String)
deriving DecidableEq, Repr

/-- Embeds the source enum ApplicationCommandOptionType (lines 26-36).
The ten member names are kept as constructors; the wire integers live in
ApplicationCommandOptionType.value below, exactly as assigned in the source. -/
inductive ApplicationCommandOptionType where
  | SUB_COMMAND
  | SUB_COMMAND_GROUP
  | STRING
  | INTEGER
  | BOOLEAN
  | USER
  | CHANNEL
  | ROLE
  | MENTIONABLE
  | NUMBER
deriving DecidableEq, Repr

/-- The wire integer of each member, exactly as written in the source
(lines 27-36). Note the source assigns 8 to both ROLE and MENTIONABLE
and assigns no member the value 9. -/
def ApplicationCommandOptionType.value : ApplicationCommandOptionType → Int
  | .SUB_COMMAND => 1
  | .SUB_COMMAND_GROUP => 2
  | .STRING => 3
  | .INTEGER => 4
  | .BOOLEAN => 5
  | .USER => 6
  | .CHANNEL => 7
  | .ROLE => 8
  | .MENTIONABLE => 8
  | .NUMBER => 10

/-- Modelled from the spec: the integer-to-tag conversion performed by the
enum machinery of `discord.enums` (not under src/) when the source calls
`ApplicationCommandOptionType(n)`; per the spec it fails with InvalidSchema
on an integer that is not a recognized tag. Recognized integers are exactly
the values assigned in the source enum (8 resolves to its first-declared
member, ROLE, per the alias semantics of duplicated enum values). -/
def ApplicationCommandOptionType.fromInt (n : Int) :
    Except SchemaError ApplicationCommandOptionType :=
  if n = 1 then .ok .SUB_COMMAND
  else if n = 2 then .ok .SUB_COMMAND_GROUP
  else if n = 3 then .ok .STRING
  else if n = 4 then .ok .INTEGER
  else if n = 5 then .ok .BOOLEAN
  else if n = 6 then .ok .USER
  else if n = 7 then .ok .CHANNEL
  else if n = 8 then .ok .ROLE
  else if n = 10 then .ok .NUMBER
  else .error (.InvalidSchema "not a valid ApplicationCommandOptionType")

/-- Embeds the source enum ApplicationCommandType (lines 39-42). -/
inductive ApplicationCommandType where
  | CHAT_INPUT
  | USER
  | MESSAGE
deriving DecidableEq, Repr

/-- Wire integers of ApplicationCommandType, as in the source (lines 40-42). -/
def ApplicationCommandType.value : ApplicationCommandType → Int
  | .CHAT_INPUT => 1
  | .USER => 2
  | .MESSAGE => 3

/-- Modelled from the spec: integer-to-tag conversion for
ApplicationCommandType via the `discord.enums` machinery (not under src/),
failing on unrecognized integers. -/
def ApplicationCommandType.fromInt (n : Int) :
    Except SchemaError ApplicationCommandType :=
  if n = 1 then .ok .CHAT_INPUT
  else if n = 2 then .ok .USER
  else if n = 3 then .ok .MESSAGE
  else .error (.InvalidSchema "not a valid ApplicationCommandType")

/-- The `str | int | float` union of a choice value (source line 86).
Float values are only ever stored and compared, never computed with, so they
are carried opaquely by an identifying tag. -/
inductive ChoiceValue where
  | ofStr (s : String)
  | ofInt (n : Int)
  | ofFloat (tag : Nat)
deriving DecidableEq, Repr

/-- Embeds the dataclass ApplicationCommandOptionChoice (lines 83-103). -/
structure ApplicationCommandOptionChoice where
  name : String
  value : ChoiceValue
deriving DecidableEq, Repr

/-- Embeds ApplicationCommandOptionChoice.__eq__ (lines 95-100): structural
comparison of name and value; the isinstance guard is reflected in the type. -/
def choiceEq (a b : ApplicationCommandOptionChoice) : Bool :=
  a.name == b.name && a.value == b.value

/-- Embeds the dataclass ApplicationCommandOption (lines 106-187).
The recursive `options` field makes this a nested inductive; the field
order and defaults follow the source. `channel_types` holds ChannelType
members represented by their wire integers (the external ChannelType enum
is only ever stored and lowered via `.value`). `min_value`/`max_value` are
the source's `int | None`. -/
inductive ApplicationCommandOption where
  | mk (type : ApplicationCommandOptionType)
       (name : String)
       (description : String)
       (required : Bool)
       (choices : Option (List ApplicationCommandOptionChoice))
       (options : Option (List ApplicationCommandOption))
       (channel_types : Option (List Int))
       (min_value : Option Int)
       (max_value : Option Int)
       (autocomplete : Bool)
deriving Repr

namespace ApplicationCommandOption

def type : ApplicationCommandOption → ApplicationCommandOptionType
  | .mk t _ _ _ _ _ _ _ _ _ => t

def name : ApplicationCommandOption → String
  | .mk _ n _ _ _ _ _ _ _ _ => n

def description : ApplicationCommandOption → String
  | .mk _ _ d _ _ _ _ _ _ _ => d

def required : ApplicationCommandOption → Bool
  | .mk _ _ _ r _ _ _ _ _ _ => r

def choices : ApplicationCommandOption → Option (List ApplicationCommandOptionChoice)
  | .mk _ _ _ _ c _ _ _ _ _ => c

def options : ApplicationCommandOption → Option (List ApplicationCommandOption)
  | .mk _ _ _ _ _ o _ _ _ _ => o

def channel_types : ApplicationCommandOption → Option (List Int)
  | .mk _ _ _ _ _ _ ct _ _ _ => ct

def min_value : ApplicationCommandOption → Option Int
  | .mk _ _ _ _ _ _ _ mn _ _ => mn

def max_value : ApplicationCommandOption → Option Int
  | .mk _ _ _ _ _ _ _ _ mx _ => mx

def autocomplete : ApplicationCommandOption → Bool
  | .mk _ _ _ _ _ _ _ _ _ a => a

end ApplicationCommandOption

/-- Embeds the Python comparison `self.choices != other.options` appearing in
ApplicationCommandOption.__eq__ (line 176): a list of choices compared
against a list of options. Python list equality compares lengths then
elements; a Choice never equals an Option (the isinstance guard in
Choice.__eq__ fails), so two present lists compare equal exactly when both
are empty, and None compares equal only to None. Returns true when the two
values are EQUAL (the source then negates). -/
def choicesOptionsCrossEq :
    Option (List ApplicationCommandOptionChoice) →
    Option (List ApplicationCommandOption) → Bool
  | none, none => true
  | some cs, some os => cs.isEmpty && os.isEmpty
  | _, _ => false

mutual

/-- Embeds ApplicationCommandOption.__eq__ (lines 164-178), byte for byte in
the source's comparison order: type wire value, name, description,
autocomplete, max_value, min_value, channel_types, required, the options
list element by element, and then the source's `self.choices != other.options`
comparison (choices of the left against OPTIONS of the right). -/
def optionEq : ApplicationCommandOption → ApplicationCommandOption → Bool
  | .mk t n d r c o ct mn mx au, .mk t2 n2 d2 r2 _c2 o2 ct2 mn2 mx2 au2 =>
    t.value == t2.value && n == n2 && d == d2 && au == au2 &&
    mx == mx2 && mn == mn2 && ct == ct2 && r == r2 &&
    optionListOptEq o o2 && choicesOptionsCrossEq c o2

/-- Python equality of two `options` field values (list or None): None equals
only None; two lists compare element by element with __eq__. -/
def optionListOptEq :
    Option (List ApplicationCommandOption) →
    Option (List ApplicationCommandOption) → Bool
  | none, none => true
  | some xs, some ys => optionListEq xs ys
  | _, _ => false

/-- Python list equality over options: equal lengths and pairwise __eq__. -/
def optionListEq : List ApplicationCommandOption → List ApplicationCommandOption → Bool
  | [], [] => true
  | x :: xs, y :: ys => optionEq x y && optionListEq xs ys
  | _, _ => false

end

/-- Embeds the direct dataclass construction of ApplicationCommandOption
together with __post_init__ (lines 119-131) for the case where `choices` and
`options` are already schema instances (the buffer-conversion branches at
lines 122-131 are guarded by an isinstance check and are no-ops then; the
raw-payload branches are embedded in optionFromPayload below). The `type`
argument is the source's `int | ApplicationCommandOptionType`: an integer is
coerced through the enumeration and an already-typed tag is kept as is. -/
def makeOption (type : Int ⊕ ApplicationCommandOptionType)
    (name description : String)
    (required : Bool)
    (choices : Option (List ApplicationCommandOptionChoice))
    (options : Option (List ApplicationCommandOption))
    (channel_types : Option (List Int))
    (min_value max_value : Option Int)
    (autocomplete : Bool) :
    Except SchemaError ApplicationCommandOption :=
  match type with
  | .inl n => do
      let t ← ApplicationCommandOptionType.fromInt n
      .ok (.mk t name description required choices options channel_types
            min_value max_value autocomplete)
  | .inr t =>
      .ok (.mk t name description required choices options channel_types
            min_value max_value autocomplete)

/-- Convenience for the common construction `ApplicationCommandOption(type=t,
name=n, description=d)` with every other field left at its dataclass default
(required=False, choices=None, options=None, channel_types=None,
min_value=None, max_value=None, autocomplete=False). -/
def plainOption (t : ApplicationCommandOptionType) (name description : String) :
    ApplicationCommandOption :=
  .mk t name description false none none none none none false

/-- The mapping form of an option as produced by
ApplicationCommandOption.__repr__ (lines 133-162): `type` lowered to its wire
integer, `channel_types` lowered to wire integers, nested choices and options
serialized recursively, absent optional fields omitted (modelled as none).
A serialized choice carries exactly the fields of the choice itself (lines
88-93), so choice payloads reuse the choice structure. -/
inductive OptionPayload where
  | mk (name : String)
       (description : String)
       (type : Int)
       (required : Bool)
       (autocomplete : Bool)
       (choices : Option (List ApplicationCommandOptionChoice))
       (options : Option (List OptionPayload))
       (channel_types : Option (List Int))
       (min_value : Option Int)
       (max_value : Option Int)
deriving Repr

mutual

/-- Embeds ApplicationCommandOption.__repr__ (lines 133-162). -/
def optionRepr : ApplicationCommandOption → OptionPayload
  | .mk t n d r c o ct mn mx au =>
    .mk n d t.value r au c (optionListRepr o) ct mn mx

def optionListRepr :
    Option (List ApplicationCommandOption) → Option (List OptionPayload)
  | none => none
  | some xs => some (optionsToPayloads xs)

def optionsToPayloads : List ApplicationCommandOption → List OptionPayload
  | [] => []
  | x :: xs => optionRepr x :: optionsToPayloads xs

end

mutual

/-- Embeds ApplicationCommandOption.from_payload (lines 183-187) applied to a
raw mapping, i.e. `cls(**data)` followed by __post_init__ (lines 119-131):
the integer type tag is coerced through the enumeration (failing with
InvalidSchema on an unrecognized tag), raw nested choices become choice
instances (structurally identical here), and raw nested options are
constructed recursively. Fields absent from the mapping keep their dataclass
defaults. -/
def optionFromPayload : OptionPayload → Except SchemaError ApplicationCommandOption
  | .mk n d t r au c o ct mn mx => do
      let ty ← ApplicationCommandOptionType.fromInt t
      let os ← optionListFromPayload o
      .ok (.mk ty n d r c os ct mn mx au)

def optionListFromPayload :
    Option (List OptionPayload) →
    Except SchemaError (Option (List ApplicationCommandOption))
  | none => .ok none
  | some ps => do
      let os ← payloadsToOptions ps
      .ok (some os)

def payloadsToOptions :
    List OptionPayload → Except SchemaError (List ApplicationCommandOption)
  | [] => .ok []
  | p :: ps => do
      let o ← optionFromPayload p
      let os ← payloadsToOptions ps
      .ok (o :: os)

end

/-- Embeds the class ApplicationCommand (lines 190-277). Field order follows
the attribute assignments in __init__ (lines 205-226). The opaque behavior
reference `callback` and the cog are never inspected by this core and are
modelled as opaque tokens. Identity fields (`id`, `application_id`,
`version`) are absent (none) until registration assigns them. -/
structure ApplicationCommand where
  callback : Option Nat
  id : Option Int
  type : ApplicationCommandType
  application_id : Option Int
  guild_id : Option Int
  name : String
  description : String
  options : Option (List ApplicationCommandOption)
  default_permission : Bool
  default_member_permissions : Option Bool
  dm_permission : Option Bool
  version : Option Int
  cog : Option Nat
deriving Repr

/-- The construction `ApplicationCommand(name=n, description=d)` with every
other argument left at its default in the __init__ signature (lines
192-204): callback=None, id=None, type=CHAT_INPUT, application_id=None,
guild_id=None, options=None, default_permission=True,
default_member_permissions=None, dm_permission=None, version=None,
cog=None. -/
def mkCommand (name description : String) : ApplicationCommand where
  callback := none
  id := none
  type := .CHAT_INPUT
  application_id := none
  guild_id := none
  name := name
  description := description
  options := none
  default_permission := true
  default_member_permissions := none
  dm_permission := none
  version := none
  cog := none

/-- Embeds ApplicationCommand.__copy__ (lines 234-239): a new command built
from only type, name, description, callback and options; every other
argument of __init__ is left at its default, so the copy carries no identity
fields, no guild_id, no permission overrides and no cog. -/
def cmdCopy (c : ApplicationCommand) : ApplicationCommand :=
  { mkCommand c.name c.description with
      type := c.type
      callback := c.callback
      options := c.options }

/-- Embeds ApplicationCommand.__eq__ (lines 262-274) in the source's
comparison order: type wire value, name, description, guild_id,
default_permission, default_member_permissions, dm_permission, and the
options lists element by element (via ApplicationCommandOption.__eq__).
Identity fields id, application_id and version are not compared. -/
def cmdEq (a b : ApplicationCommand) : Bool :=
  a.type.value == b.type.value && a.name == b.name &&
  a.description == b.description && a.guild_id == b.guild_id &&
  a.default_permission == b.default_permission &&
  a.default_member_permissions == b.default_member_permissions &&
  a.dm_permission == b.dm_permission && optionListOptEq a.options b.options

/-- Embeds ApplicationCommand.__eq__ (lines 262-274) as it executes when the
two operands hold the very same options list object, which is the situation
for every comparison `copy(d) == d`: __copy__ (line 239) passes
`options=self.options`, the identical list, into the new command. CPython
list comparison walks elements with an identity short-circuit
(PyObject_RichCompareBool returns equal for identical objects without
calling __eq__), and None equals None, so the options comparison at line
272 succeeds for a copy regardless of the elements; the remaining scalar
field comparisons are as in cmdEq. cmdEq itself remains the embedding for
comparisons of independently constructed commands, whose lists are distinct
objects. -/
def cmdEqSharedOptions (a b : ApplicationCommand) : Bool :=
  a.type.value == b.type.value && a.name == b.name &&
  a.description == b.description && a.guild_id == b.guild_id &&
  a.default_permission == b.default_permission &&
  a.default_member_permissions == b.default_member_permissions &&
  a.dm_permission == b.dm_permission

/-- The mapping form of a command as produced by ApplicationCommand.__repr__
(lines 241-260): always name, description, type wire value and
default_permission; id, application_id, version, guild_id and the
recursively serialized options only when set (none = omitted). The source
repr emits NO entry for default_member_permissions, dm_permission, callback
or cog, so this mapping has no such fields. -/
structure CommandPayload where
  name : String
  description : String
  type : Int
  default_permission : Bool
  id : Option Int
  application_id : Option Int
  version : Option Int
  guild_id : Option Int
  options : Option (List OptionPayload)
deriving Repr

/-- Embeds ApplicationCommand.__repr__ (lines 241-260). -/
def cmdRepr (c : ApplicationCommand) : CommandPayload where
  name := c.name
  description := c.description
  type := c.type.value
  default_permission := c.default_permission
  id := c.id
  application_id := c.application_id
  version := c.version
  guild_id := c.guild_id
  options := optionListRepr c.options

/-- Embeds ApplicationCommand.from_payload (lines 228-232) applied to a
mapping of the repr shape, i.e. `cls(**data)` through __init__ (lines
192-226): the integer type tag is coerced through ApplicationCommandType,
raw option mappings are converted via ApplicationCommandOption.from_payload
(lines 216-221; for a list of raw mappings the `any(isinstance(...))` guard
is false, so every entry is converted), and every keyword absent from the
mapping keeps its __init__ default — in particular callback, cog,
default_member_permissions and dm_permission come back as None. -/
def cmdFromPayload (p : CommandPayload) : Except SchemaError ApplicationCommand := do
  let ty ← ApplicationCommandType.fromInt p.type
  let os ← optionListFromPayload p.options
  .ok { mkCommand p.name p.description with
          type := ty
          id := p.id
          application_id := p.application_id
          guild_id := p.guild_id
          options := os
          default_permission := p.default_permission
          version := p.version }

/-- A registration scope: a guild id, or none for the global sentinel (the
source keys `_pre_registration_commands` by `guild_id`, which is None for a
global declaration). -/
abbrev Scope := Option Int

/-- Embeds the module-level dict `_pre_registration_commands` (line 18): an
insertion-ordered mapping from scope key to the list of commands staged for
that scope, modelled as an association list. -/
abbrev PendingRegistry := List (Scope × List ApplicationCommand)

/-- Dict key lookup: the value at the first (unique) occurrence of the key. -/
def lookupScope : PendingRegistry → Scope → Option (List ApplicationCommand)
  | [], _ => none
  | (k, l) :: rest, s => if k = s then some l else lookupScope rest s

/-- Embeds `_pre_registration_commands[guild_id].append(command)` (line 377):
append one command to the list stored under the key. -/
def appendAt : PendingRegistry → Scope → ApplicationCommand → PendingRegistry
  | [], _, _ => []
  | (k, l) :: rest, s, c =>
      if k = s then (k, l ++ [c]) :: rest else (k, l) :: appendAt rest s c

/-- Embeds the staging tail of slash_command (lines 375-377):
`if guild_id not in _pre_registration_commands` create an empty list under
the key, then append the command to the key's list. -/
def stageCommand (m : PendingRegistry) (s : Scope) (c : ApplicationCommand) :
    PendingRegistry :=
  appendAt (if (lookupScope m s).isSome then m else m ++ [(s, [])]) s c

/-- The list staged under a scope, empty when the key is absent. -/
def getScope (m : PendingRegistry) (s : Scope) : List ApplicationCommand :=
  (lookupScope m s).getD []

/-- A sequence of staging calls, applied in order to an initial registry. -/
def stageAll (events : List (Scope × ApplicationCommand))
    (init : PendingRegistry) : PendingRegistry :=
  events.foldl (fun m e => stageCommand m e.1 e.2) init

/-- The observable outcome of one `register_commands` pass: the overwrite
requests issued (guild id paired with the json body submitted), the
transport responses received, and the staged registry as it stands after
the pass. -/
structure RegisterOutcome where
  calls : List (Int × List ApplicationCommand)
  responses : List (List CommandPayload)
  staged_after : PendingRegistry

/-- Embeds the LIVE code of register_commands (lines 280-317).
`guilds` are the ids of `bot.guilds`; `transport` abstracts
`bot._connection.http.request` for the PUT overwrite route, mapping a guild
id and json body to the response list. Faithful to the source as written:
line 284 initializes `pre_registration_guild_commands = []` and the loop
that would collect staged commands into it (lines 285-286) is commented
out, so every guild's submitted body is empty; lines 300-306 issue one PUT
per guild and bind the response to `result`, which is never used; the
global-scope section (lines 308-317) is entirely commented out; nothing
writes identity fields back and nothing touches `_pre_registration_commands`
or the registered-command dicts. -/
def register_commands (guilds : List Int) (staged : PendingRegistry)
    (transport : Int → List ApplicationCommand → List CommandPayload) :
    RegisterOutcome :=
  let pre_registration_guild_commands : List ApplicationCommand := []
  let calls := guilds.map fun g =>
    (g, pre_registration_guild_commands.map fun command => command)
  let responses := calls.map fun c => transport c.1 c.2
  { calls := calls, responses := responses, staged_after := staged }

/-- A transport stub that echoes every submitted definition back with the
identity triple id=42, application_id=7, version=1 attached - the success
shape the spec describes (N response entries for N submitted definitions). -/
def transportEcho (_g : Int) (body : List ApplicationCommand) :
    List CommandPayload :=
  body.map fun c =>
    { cmdRepr c with id := some 42, application_id := some 7, version := some 1 }

/-- The Python classes that can appear as parameter annotations in the
inference chain of slash_command (lines 348-363). `issubclass` facts about
them are fixed by the language and the discord library: bool is a subclass
of int (and bool itself admits no subclasses), and no class here is a
subclass of any other. -/
inductive PyClass where
  | pyStr
  | pyInt
  | pyBool
  | pyFloat
  | discordUser
  | guildChannel
  | discordRole
  | discordMentionable
deriving DecidableEq, Repr

/-- Python issubclass restricted to the classes above: reflexive, plus the
single proper edge bool < int. -/
def issubclass (a b : PyClass) : Bool :=
  a == b || (a == .pyBool && b == .pyInt)

/-- Runtime failures of the slash_command inference chain. -/
inductive SlashError where
  | InvalidArgument (msg : String)
  | AttributeError (msg : String)
deriving DecidableEq, Repr

/-- Embeds the annotation-to-option-type chain of slash_command (lines
348-367), in the source's branch order. The Role branch (line 359) reads
`ApplicationCommandType.ROLE`, an attribute that does not exist on that
enum, which raises AttributeError at runtime; the final else raises
InvalidArgument (lines 365-367). -/
def inferOptionType (t : PyClass) :
    Except SlashError ApplicationCommandOptionType :=
  if issubclass t .pyStr then .ok .STRING
  else if issubclass t .pyInt then .ok .INTEGER
  else if issubclass t .pyBool then .ok .BOOLEAN
  else if issubclass t .discordUser then .ok .USER
  else if issubclass t .guildChannel then .ok .CHANNEL
  else if issubclass t .discordRole then
    .error (.AttributeError "ApplicationCommandType has no member ROLE")
  else if issubclass t .discordMentionable then .ok .MENTIONABLE
  else if issubclass t .pyFloat then .ok .NUMBER
  else .error (.InvalidArgument "does not match any type expected")

/-- Embeds the option built for one annotated parameter of slash_command
(lines 368-370): the inferred type, the argument name, and the fixed
description "temporary description", all other fields at their dataclass
defaults. -/
def slashOptionFor (argName : String) (t : PyClass) :
    Except SlashError ApplicationCommandOption :=
  (inferOptionType t).map fun ty => plainOption ty argName "temporary description"

/-- Python equality of two `choices` field values (list or None). -/
def choiceListEq :
    List ApplicationCommandOptionChoice →
    List ApplicationCommandOptionChoice → Bool
  | [], [] => true
  | x :: xs, y :: ys => choiceEq x y && choiceListEq xs ys
  | _, _ => false

/-- None equals only None; two lists compare element by element. -/
def choicesOptEq :
    Option (List ApplicationCommandOptionChoice) →
    Option (List ApplicationCommandOptionChoice) → Bool
  | none, none => true
  | some xs, some ys => choiceListEq xs ys
  | _, _ => false

mutual

/-- Modelled from the spec: option equality as the specification defines it
("this spec defines the correct equality as choices-vs-choices"), identical
to the source's optionEq except that the final comparison is between the
two CHOICES fields instead of the source's choices-versus-options slip. -/
def specOptionEq : ApplicationCommandOption → ApplicationCommandOption → Bool
  | .mk t n d r c o ct mn mx au, .mk t2 n2 d2 r2 c2 o2 ct2 mn2 mx2 au2 =>
    t.value == t2.value && n == n2 && d == d2 && au == au2 &&
    mx == mx2 && mn == mn2 && ct == ct2 && r == r2 &&
    specOptionListOptEq o o2 && choicesOptEq c c2

def specOptionListOptEq :
    Option (List ApplicationCommandOption) →
    Option (List ApplicationCommandOption) → Bool
  | none, none => true
  | some xs, some ys => specOptionListEq xs ys
  | _, _ => false

def specOptionListEq :
    List ApplicationCommandOption → List ApplicationCommandOption → Bool
  | [], [] => true
  | x :: xs, y :: ys => specOptionEq x y && specOptionListEq xs ys
  | _, _ => false

end

/-! Helper lemmas about the staging registry. -/

theorem lookupScope_appendAt_self (m : PendingRegistry) (s : Scope)
    (c : ApplicationCommand) :
    lookupScope (appendAt m s c) s = (lookupScope m s).map (fun l => l ++ [c]) := by
  induction m with
  | nil => rfl
  | cons e rest ih =>
      obtain ⟨k, l⟩ := e
      by_cases h : k = s <;> simp [appendAt, lookupScope, h, ih]

theorem lookupScope_appendAt_other (m : PendingRegistry) (s s2 : Scope)
    (c : ApplicationCommand) (h : s2 ≠ s) :
    lookupScope (appendAt m s c) s2 = lookupScope m s2 := by
  induction m with
  | nil => rfl
  | cons e rest ih =>
      obtain ⟨k, l⟩ := e
      by_cases hk : k = s
      · subst hk
        have : k ≠ s2 := fun he => h he.symm
        simp [appendAt, lookupScope, this]
      · by_cases hk2 : k = s2 <;> simp [appendAt, lookupScope, hk, hk2, h, ih]

theorem lookupScope_append_new_self (m : PendingRegistry) (s : Scope)
    (h : lookupScope m s = none) :
    lookupScope (m ++ [(s, [])]) s = some [] := by
  induction m with
  | nil => simp [lookupScope]
  | cons e rest ih =>
      obtain ⟨k, l⟩ := e
      by_cases hk : k = s
      · simp [lookupScope, hk] at h
      · simp [lookupScope, hk] at h ⊢
        exact ih h

theorem lookupScope_append_new_other (m : PendingRegistry) (s s2 : Scope)
    (h : s2 ≠ s) :
    lookupScope (m ++ [(s, [])]) s2 = lookupScope m s2 := by
  induction m with
  | nil =>
      have : s ≠ s2 := fun he => h he.symm
      simp [lookupScope, this]
  | cons e rest ih =>
      obtain ⟨k, l⟩ := e
      by_cases hk : k = s2 <;> simp [lookupScope, hk, ih]

theorem getScope_stage_self (m : PendingRegistry) (s : Scope)
    (c : ApplicationCommand) :
    getScope (stageCommand m s c) s = getScope m s ++ [c] := by
  unfold getScope stageCommand
  cases h : lookupScope m s with
  | none =>
      simp [h, lookupScope_appendAt_self, lookupScope_append_new_self m s h]
  | some l =>
      simp [h, lookupScope_appendAt_self]

theorem getScope_stage_other (m : PendingRegistry) (s s2 : Scope)
    (c : ApplicationCommand) (h : s2 ≠ s) :
    getScope (stageCommand m s c) s2 = getScope m s2 := by
  unfold getScope stageCommand
  cases hm : lookupScope m s with
  | none =>
      simp [hm, lookupScope_appendAt_other _ _ _ _ h,
            lookupScope_append_new_other m s s2 h]
  | some l =>
      simp [hm, lookupScope_appendAt_other _ _ _ _ h]

theorem getScope_stageAll (events : List (Scope × ApplicationCommand)) :
    ∀ (init : PendingRegistry) (s : Scope),
      getScope (stageAll events init) s =
        getScope init s ++ (events.filter (fun e => e.1 == s)).map Prod.snd := by
  induction events with
  | nil => intro init s; simp [stageAll]
  | cons e es ih =>
      intro init s
      have hstep : stageAll (e :: es) init = stageAll es (stageCommand init e.1 e.2) := rfl
      rw [hstep, ih]
      by_cases h : e.1 = s
      · subst h
        simp [getScope_stage_self]
      · have hne : s ≠ e.1 := fun he => h he.symm
        simp [getScope_stage_other init e.1 s e.2 hne, h]

/-! Concrete values used by the claim theorems. -/

/-- An option whose fields all match its own: one choice, no nested options. -/
def choicesOnlyOption : ApplicationCommandOption :=
  .mk .STRING "color" "pick one" false
    (some [⟨"red", .ofStr "r"⟩]) none none none none false

/-- A command staged for guild scope 1, as a staging call would build it. -/
def pingCommand : ApplicationCommand :=
  { mkCommand "ping" "pong" with guild_id := some 1 }

/-- A command whose guild scope is set, for the copy-equality claim. -/
def guildScopedCommand : ApplicationCommand :=
  { mkCommand "ping" "pong" with guild_id := some 5 }

/-- A command with all three identity fields assigned and a choice-bearing
option: the options list is not self-equal under the structural option
comparison (the line-176 defect), yet the program still judges its copy
equal to it, because the copy shares the very same list object. -/
def registeredChoicesCommand : ApplicationCommand :=
  { mkCommand "pick" "choose" with
      id := some 42, application_id := some 7, version := some 3,
      options := some [choicesOnlyOption] }

/-- A command with the dm_permission optional field present. -/
def dmRestrictedCommand : ApplicationCommand :=
  { mkCommand "ping" "pong" with dm_permission := some false }

/-- Claim C1: the source's ApplicationCommandOption.__eq__ (line 176)
compares the left operand's choices list against the right operand's
OPTIONS list, so an option with one choice and no nested options compares
UNEQUAL to a field-identical option (here literally itself), refuting the
claimed equality; under the spec's choices-vs-choices equality the same
pair compares equal. -/
theorem option_eq_compares_choices_to_options :
    optionEq choicesOnlyOption choicesOnlyOption = false ∧
    specOptionEq choicesOnlyOption choicesOnlyOption = true := ⟨rfl, rfl⟩

/-- Claim C2: the live register_commands never propagates remote identity.
With one command staged for guild scope 1, one guild, and a transport that
echoes every submitted definition back with identity id=42/application_id=7/
version=1, the pass submits an EMPTY body (the collection of staged
definitions is commented out), leaves the staged registry untouched, and
the staged command's id is still None instead of the claimed 42. -/
theorem register_commands_discards_identity :
    (register_commands [1] (stageCommand [] (some 1) pingCommand) transportEcho).calls
        = [(1, [])] ∧
    (register_commands [1] (stageCommand [] (some 1) pingCommand) transportEcho).staged_after
        = stageCommand [] (some 1) pingCommand ∧
    (getScope (register_commands [1] (stageCommand [] (some 1) pingCommand)
        transportEcho).staged_after (some 1)).map ApplicationCommand.id = [none] :=
  ⟨rfl, rfl, rfl⟩

/-- Claim C3: with an empty staged registry the live register_commands still
issues one overwrite request per guild, whose body is the empty list - the
exact empty submission the claim says is never sent for an empty scope. -/
theorem register_commands_submits_for_empty_scope :
    getScope [] (some 1) = [] ∧
    (register_commands [1] [] transportEcho).calls = [(1, [])] := ⟨rfl, rfl⟩

/-- Claim C4 counterexample: __copy__ (lines 234-239) passes only type,
name, description, callback and options to the new command, so a command
with guild_id = 5 yields a copy with guild_id = None, and __eq__ (line 268)
compares guild_id, making copy(d) == d FALSE for this d. -/
theorem copy_eq_fails_for_guild_scope :
    cmdEq (cmdCopy guildScopedCommand) guildScopedCommand = false := rfl

/-- Claim C4 (amended): copy(d) == d holds - identity fields id,
application_id, version free, since equality ignores them - provided the
fields __copy__ drops are at their defaults: guild_id, member-permission
and dm-permission overrides unset, default_permission True. The options
list is unrestricted: the copy holds the very same list object, so the
program's options comparison succeeds by element identity, which
cmdEqSharedOptions embeds. -/
theorem copy_eq_of_default_dropped_fields (d : ApplicationCommand)
    (hg : d.guild_id = none) (hp : d.default_permission = true)
    (hm : d.default_member_permissions = none) (hd : d.dm_permission = none) :
    cmdEqSharedOptions (cmdCopy d) d = true := by
  simp [cmdEqSharedOptions, cmdCopy, mkCommand, hg, hp, hm, hd]

/-- Witness for the amended C4 at a command whose identity triple is fully
assigned and whose options contain a choice-bearing option - the case where
the structural option comparison would fail but the program's shared-list
comparison succeeds: the copy compares equal. -/
theorem copy_eq_of_default_dropped_fields_witness :
    cmdEqSharedOptions (cmdCopy registeredChoicesCommand) registeredChoicesCommand
      = true :=
  copy_eq_of_default_dropped_fields registeredChoicesCommand rfl rfl rfl rfl

/-- Claim C5: ApplicationCommand.__repr__ (lines 241-260) emits no entry for
dm_permission (or default_member_permissions) even when set, so serializing
a command with dm_permission = False and reconstructing via from_payload
yields a command with dm_permission = None, which __eq__ (line 271) reports
unequal to the original - the round-trip fails for this combination of
present optional fields. -/
theorem roundtrip_drops_dm_permission :
    cmdFromPayload (cmdRepr dmRestrictedCommand) = .ok (mkCommand "ping" "pong") ∧
    cmdEq (mkCommand "ping" "pong") dmRestrictedCommand = false := ⟨rfl, rfl⟩

/-- Claim C6: constructing an option from a raw payload whose integer type
tag is 99 - not a recognized ApplicationCommandOptionType value - fails
with InvalidSchema, for every name and description, rather than storing the
raw integer or failing differently. -/
theorem unrecognized_option_type_rejected (n d : String) :
    optionFromPayload (.mk n d 99 false false none none none none none)
      = .error (.InvalidSchema "not a valid ApplicationCommandOptionType") := rfl

/-- Claim C7: the source enum (lines 34-35) assigns the wire integer 8 to
BOTH ROLE and MENTIONABLE (and assigns no member 9, the remote API's value
for MENTIONABLE), so the ten members do not carry ten distinct wire
integers as claimed. -/
theorem role_mentionable_share_wire_value :
    ApplicationCommandOptionType.value .ROLE
      = ApplicationCommandOptionType.value .MENTIONABLE ∧
    ApplicationCommandOptionType.value .MENTIONABLE = 8 := ⟨rfl, rfl⟩

/-- Claim C8: staging appends exactly one definition under the staged
definition's own scope key, leaves every other scope's list unchanged, and
after any sequence of staging calls starting from the empty registry each
scope's list is exactly the definitions staged for that scope, in staging
order, duplicates preserved (the right-hand side keeps every matching
event, deduplicating nothing). -/
theorem stage_appends_exactly_per_scope :
    (∀ (m : PendingRegistry) (s : Scope) (c : ApplicationCommand),
        getScope (stageCommand m s c) s = getScope m s ++ [c]) ∧
    (∀ (m : PendingRegistry) (s s2 : Scope) (c : ApplicationCommand),
        s2 ≠ s → getScope (stageCommand m s c) s2 = getScope m s2) ∧
    (∀ (events : List (Scope × ApplicationCommand)) (s : Scope),
        getScope (stageAll events []) s =
          (events.filter (fun e => e.1 == s)).map Prod.snd) :=
  ⟨getScope_stage_self,
   fun m s s2 c h => getScope_stage_other m s s2 c h,
   fun events s => by simpa [getScope, lookupScope] using getScope_stageAll events [] s⟩

/-- Witness for C8's hypothesis-bearing conjunct at concrete input: staging
under guild scope 1 leaves the global scope's list unchanged. -/
theorem stage_appends_exactly_per_scope_witness :
    getScope (stageCommand [] (some 1) (mkCommand "ping" "pong")) none
      = getScope [] none :=
  stage_appends_exactly_per_scope.2.1 [] (some 1) none (mkCommand "ping" "pong")
    (by decide)

/-- Claim C9: an option constructed with the raw integer type tag 4 is
coerced by __post_init__ into ApplicationCommandOptionType.INTEGER, an
option constructed with the enum tag directly is kept as is, and the two
results compare equal under the code's __eq__, for every name and
description. -/
theorem raw_int_tag_coerced_to_enum (n d : String) :
    makeOption (.inl 4) n d false none none none none none false
        = .ok (plainOption .INTEGER n d) ∧
    makeOption (.inr .INTEGER) n d false none none none none none false
        = .ok (plainOption .INTEGER n d) ∧
    optionEq (plainOption .INTEGER n d) (plainOption .INTEGER n d) = true := by
  refine ⟨rfl, rfl, ?_⟩
  simp [optionEq, plainOption, ApplicationCommandOptionType.value,
        optionListOptEq, choicesOptionsCrossEq]

/-- Claim C10: a parameter annotated bool satisfies issubclass(bool, int),
and the int branch of slash_command (line 350) precedes the bool branch
(line 352), so a bool parameter produces an option typed INTEGER; moreover
no annotation class at all can produce a BOOLEAN-typed option, since any
class passing the bool check already passed the int check. -/
theorem bool_parameter_mapped_to_integer (n : String) :
    slashOptionFor n .pyBool = .ok (plainOption .INTEGER n "temporary description") ∧
    ∀ t : PyClass,
      Except.map ApplicationCommandOption.type (slashOptionFor n t)
        ≠ .ok .BOOLEAN := by
  refine ⟨rfl, ?_⟩
  intro t
  cases t <;> simp [slashOptionFor, inferOptionType, issubclass, Except.map,
                    plainOption, ApplicationCommandOption.type]

end DiscordExt
